import Mathlib

/-!
Shallow embedding of the `calculadoracarbono` CO2 trip-emission calculator.

Embedded from the source:
* `src/js/config.js` — the `CONFIG` object (emission factors, transport-mode
  declaration order, carbon-credit constants) and the `RoutesDB` object
  (route table, `getAllCities`, `findDistance`).
* `src/js/calculator.js` is not present in the repository snapshot (only the
  prompt that generated it, `src/Prompts.md`, and the specification describe
  it), so the `Calculator` functions are modelled from the spec; each such
  definition says so in its doc comment.

Modelling conventions: JavaScript numbers are modelled as exact rationals
(all constants in the source are exact decimals); `Math.round` is modelled as
round-half-up; JavaScript strings are modelled as Lean `String`s, with
`toLowerCase` restricted to the Basic-Latin and Latin-1 letters (the only
cased characters occurring in the route table) and `trim` removing the
usual JavaScript whitespace and line-terminator code points.
-/

set_option maxRecDepth 100000

attribute [local semireducible] Rat.ofScientific Rat.mul Rat.inv Rat.add Rat.sub

namespace Carbono

/-- The closed set of transport modes, in the declaration order of
`CONFIG.EMISSION_FACTORS` / `CONFIG.TRANSPORT_MODES` in `src/js/config.js`:
bicycle, car, bus, truck. -/
inductive Mode where
  | bicycle
  | car
  | bus
  | truck
deriving DecidableEq, Repr

/-- `CONFIG.EMISSION_FACTORS` from `src/js/config.js` (kg CO2 per km). -/
def EMISSION_FACTORS : Mode → ℚ
  | Mode.bicycle => 0
  | Mode.car => 0.12
  | Mode.bus => 0.089
  | Mode.truck => 0.96

/-- The modes in the declaration order of the `CONFIG.EMISSION_FACTORS`
object literal (JavaScript object keys keep insertion order). -/
def modesInOrder : List Mode := [Mode.bicycle, Mode.car, Mode.bus, Mode.truck]

/-- Position of a mode in the declaration order. -/
def declIdx : Mode → Nat
  | Mode.bicycle => 0
  | Mode.car => 1
  | Mode.bus => 2
  | Mode.truck => 3

/-- `CONFIG.CARBON_CREDIT.KG_PER_CREDIT` from `src/js/config.js`. -/
def KG_PER_CREDIT : ℚ := 1000

/-- `CONFIG.CARBON_CREDIT.PRICE_MIN_BRL` from `src/js/config.js`. -/
def PRICE_MIN_BRL : ℚ := 50

/-- `CONFIG.CARBON_CREDIT.PRICE_MAX_BRL` from `src/js/config.js`. -/
def PRICE_MAX_BRL : ℚ := 150

/-- JavaScript `String.prototype.toLowerCase`, restricted to the Basic-Latin
letters `A`–`Z` and the Latin-1 letters `À`–`Þ` (excluding `×`); every other
character is left unchanged.  All cased characters occurring in the route
table of `src/js/config.js` lie in these two ranges. -/
def jsCharToLower (c : Char) : Char :=
  if 0x41 ≤ c.toNat ∧ c.toNat ≤ 0x5A then Char.ofNat (c.toNat + 32)
  else if 0xC0 ≤ c.toNat ∧ c.toNat ≤ 0xDE ∧ c.toNat ≠ 0xD7 then Char.ofNat (c.toNat + 32)
  else c

/-- JavaScript `s.toLowerCase()` (character-wise, see `jsCharToLower`). -/
def jsToLower (s : String) : String := String.mk (s.data.map jsCharToLower)

/-- The JavaScript WhiteSpace and LineTerminator code points removed by
`String.prototype.trim` (space, tab, line feed, carriage return, vertical
tab, form feed, no-break space, line separator, paragraph separator,
zero-width no-break space). -/
def jsIsSpace (c : Char) : Bool :=
  c.toNat == 0x20 || c.toNat == 0x09 || c.toNat == 0x0A || c.toNat == 0x0D ||
  c.toNat == 0x0B || c.toNat == 0x0C || c.toNat == 0xA0 ||
  c.toNat == 0x2028 || c.toNat == 0x2029 || c.toNat == 0xFEFF

/-- JavaScript `s.trim()`: remove leading and trailing whitespace. -/
def jsTrim (s : String) : String :=
  String.mk (((s.data.dropWhile jsIsSpace).reverse.dropWhile jsIsSpace).reverse)

/-- A route record of `RoutesDB.routes` in `src/js/config.js`:
`{ origin, destination, distanceKm }`. -/
structure Route where
  origin : String
  destination : String
  distanceKm : ℚ
deriving DecidableEq, Repr

/-- `RoutesDB.routes` from `src/js/config.js`, verbatim and in order. -/
def routes : List Route := [
  ⟨"São Paulo, SP", "Rio de Janeiro, RJ", 430⟩,
  ⟨"São Paulo, SP", "Brasília, DF", 1015⟩,
  ⟨"Rio de Janeiro, RJ", "Brasília, DF", 1148⟩,
  ⟨"Belo Horizonte, MG", "Rio de Janeiro, RJ", 515⟩,
  ⟨"Belo Horizonte, MG", "São Paulo, SP", 585⟩,
  ⟨"Belo Horizonte, MG", "Brasília, DF", 738⟩,
  ⟨"São Paulo, SP", "Campinas, SP", 95⟩,
  ⟨"São Paulo, SP", "Santos, SP", 72⟩,
  ⟨"São Paulo, SP", "Sorocaba, SP", 108⟩,
  ⟨"Rio de Janeiro, RJ", "Niterói, RJ", 13⟩,
  ⟨"Rio de Janeiro, RJ", "Petrópolis, RJ", 68⟩,
  ⟨"Belo Horizonte, MG", "Ouro Preto, MG", 100⟩,
  ⟨"Belo Horizonte, MG", "Betim, MG", 35⟩,
  ⟨"Campinas, SP", "Ribeirão Preto, SP", 250⟩,
  ⟨"Curitiba, PR", "São Paulo, SP", 408⟩,
  ⟨"Curitiba, PR", "Rio de Janeiro, RJ", 835⟩,
  ⟨"Curitiba, PR", "Porto Alegre, RS", 815⟩,
  ⟨"Porto Alegre, RS", "Brasília, DF", 1825⟩,
  ⟨"Florianópolis, SC", "Curitiba, PR", 505⟩,
  ⟨"Florianópolis, SC", "Porto Alegre, RS", 685⟩,
  ⟨"Salvador, BA", "Brasília, DF", 1535⟩,
  ⟨"Salvador, BA", "Recife, PE", 840⟩,
  ⟨"Salvador, BA", "São Paulo, SP", 1938⟩,
  ⟨"Recife, PE", "Fortaleza, CE", 785⟩,
  ⟨"Fortaleza, CE", "Brasília, DF", 2149⟩,
  ⟨"Salvador, BA", "Feira de Santana, BA", 109⟩,
  ⟨"Recife, PE", "Caruaru, PE", 135⟩,
  ⟨"Manaus, AM", "Brasília, DF", 2820⟩,
  ⟨"Manaus, AM", "Belém, PA", 1800⟩,
  ⟨"Belém, PA", "Brasília, DF", 2144⟩,
  ⟨"Palmas, TO", "Brasília, DF", 970⟩,
  ⟨"Manaus, AM", "Rio de Janeiro, RJ", 3220⟩,
  ⟨"Brasília, DF", "Goiânia, GO", 209⟩,
  ⟨"Brasília, DF", "Cuiabá, MT", 990⟩,
  ⟨"Goiânia, GO", "Brasília, DF", 209⟩,
  ⟨"Campo Grande, MS", "Brasília, DF", 1255⟩,
  ⟨"Curitiba, PR", "Belo Horizonte, MG", 820⟩,
  ⟨"Porto Alegre, RS", "Rio de Janeiro, RJ", 1460⟩,
  ⟨"Salvador, BA", "Brasília, DF", 1535⟩,
  ⟨"Fortaleza, CE", "Rio de Janeiro, RJ", 2761⟩
]

/-- Insert a city into the accumulated list unless already present: the
`Set`-plus-insertion-order semantics of `cities.add` in
`RoutesDB.getAllCities`. -/
def insertCity (acc : List String) (c : String) : List String :=
  if c ∈ acc then acc else acc ++ [c]

/-- Lexicographic less-or-equal on character sequences by code point: the
comparison performed by JavaScript `Array.prototype.sort` on strings (code
units and code points agree on the Basic Multilingual Plane, where all the
stored city names live). -/
def charsLe : List Char → List Char → Bool
  | [], _ => true
  | _ :: _, [] => false
  | a :: as, b :: bs =>
    if a.toNat < b.toNat then true
    else if b.toNat < a.toNat then false
    else charsLe as bs

/-- The string order used by the default `Array.prototype.sort` comparator. -/
def strLe (a b : String) : Prop := charsLe a.data b.data = true

instance : DecidableRel strLe := fun a b => by unfold strLe; infer_instance

/-- `RoutesDB.getAllCities` from `src/js/config.js`: collect every origin and
destination into a `Set` (deduplicated, insertion order), convert to an array
and sort alphabetically (`Array.prototype.sort` with the default string
comparator, modelled by `strLe`). -/
def getAllCities : List String :=
  List.insertionSort strLe
    (routes.foldl (fun acc r => insertCity (insertCity acc r.origin) r.destination) [])

/-- The route predicate inside `RoutesDB.findDistance`: the stored route `r`
matches the (already normalized) pair `(o, d)` in either orientation, with
the stored names compared through `toLowerCase`. -/
def routeMatches (o d : String) (r : Route) : Bool :=
  (jsToLower r.origin == o && jsToLower r.destination == d) ||
  (jsToLower r.origin == d && jsToLower r.destination == o)

/-- `RoutesDB.findDistance` from `src/js/config.js`: normalize both inputs
(trim whitespace, lowercase), scan `routes` for the first record matching
the pair in either direction, and return its `distanceKm` (`null` becomes
`none`). -/
def findDistance (origin destination : String) : Option ℚ :=
  let normalizedOrigin := jsToLower (jsTrim origin)
  let normalizedDestination := jsToLower (jsTrim destination)
  (routes.find? (routeMatches normalizedOrigin normalizedDestination)).map Route.distanceKm

/-- JavaScript `Math.round`: round half up (towards positive infinity). -/
def jsRound (q : ℚ) : ℤ := ⌊q + 1 / 2⌋

/-- Round to 2 decimal places (`Math.round(x * 100) / 100`). -/
def round2 (q : ℚ) : ℚ := (jsRound (q * 100) : ℚ) / 100

/-- Round to 4 decimal places (`Math.round(x * 10000) / 10000`). -/
def round4 (q : ℚ) : ℚ := (jsRound (q * 10000) : ℚ) / 10000

/-- Modelled from the spec: `Calculator.calculateEmission` (the file
`src/js/calculator.js` is missing from the snapshot; spec section 4.2 and the
prompt in `src/Prompts.md` describe it): `distanceKm × factorFor(mode)`,
rounded to 2 decimal places. -/
def calculateEmission (distanceKm : ℚ) (mode : Mode) : ℚ :=
  round2 (distanceKm * EMISSION_FACTORS mode)

/-- A `ModeResult` entry produced by `Calculator.calculateAllModes`. -/
structure ModeResult where
  mode : Mode
  emission : ℚ
  percentageVsCar : ℚ
deriving DecidableEq, Repr

/-- Comparison used to sort mode results: ascending by emission. -/
def emLe (a b : ModeResult) : Prop := a.emission ≤ b.emission

instance : DecidableRel emLe := fun a b =>
  inferInstanceAs (Decidable (a.emission ≤ b.emission))

instance : IsTotal ModeResult emLe := ⟨fun a b => le_total a.emission b.emission⟩

instance : IsTrans ModeResult emLe := ⟨fun _ _ _ h h' => le_trans h h'⟩

/-- The loop body of `calculateAllModes`: the `ModeResult` record built for
mode `m` at the given distance, with the spec's zero-baseline guard (the
percentage versus car is reported as 0 when the car emission is 0). -/
def modeResultFor (distanceKm : ℚ) (m : Mode) : ModeResult :=
  let carEmission := calculateEmission distanceKm Mode.car
  { mode := m
    emission := calculateEmission distanceKm m
    percentageVsCar :=
      if carEmission = 0 then 0
      else calculateEmission distanceKm m / carEmission * 100 }

/-- Modelled from the spec: `Calculator.calculateAllModes` (the file
`src/js/calculator.js` is missing from the snapshot; spec section 4.3 and the
prompt in `src/Prompts.md` describe it): for every mode, in declaration
order, compute the emission and the percentage versus the car baseline, then
sort ascending by emission.  JavaScript `Array.prototype.sort` is stable,
which insertion sort on a non-strict comparison models. -/
def calculateAllModes (distanceKm : ℚ) : List ModeResult :=
  List.insertionSort emLe (modesInOrder.map (modeResultFor distanceKm))

/-- A `SavingsResult` produced by `Calculator.calculateSavings`. -/
structure SavingsResult where
  savedKg : ℚ
  percentage : ℚ
deriving DecidableEq, Repr

/-- Modelled from the spec: `Calculator.calculateSavings` (the file
`src/js/calculator.js` is missing from the snapshot; spec section 4.3 and the
prompt in `src/Prompts.md` describe it): `savedKg = baseline − emission`,
`percentage = savedKg / baseline × 100` with the zero-baseline guard, both
rounded to 2 decimals. -/
def calculateSavings (emission baselineEmission : ℚ) : SavingsResult :=
  { savedKg := round2 (baselineEmission - emission)
    percentage :=
      if baselineEmission = 0 then 0
      else round2 ((baselineEmission - emission) / baselineEmission * 100) }

/-- Modelled from the spec: `Calculator.calculateCarbonCredits` (the file
`src/js/calculator.js` is missing from the snapshot; spec section 4.4 and the
prompt in `src/Prompts.md` describe it): emission divided by
`KG_PER_CREDIT`, rounded to 4 decimal places. -/
def calculateCarbonCredits (emissionKg : ℚ) : ℚ :=
  round4 (emissionKg / KG_PER_CREDIT)

/-- A price estimate produced by `Calculator.estimateCreditPrice`. -/
structure PriceEstimate where
  min : ℚ
  max : ℚ
  average : ℚ
deriving DecidableEq, Repr

/-- Modelled from the spec: `Calculator.estimateCreditPrice` (the file
`src/js/calculator.js` is missing from the snapshot; spec section 4.4 and the
prompt in `src/Prompts.md` describe it): `min = credits × PRICE_MIN_BRL`,
`max = credits × PRICE_MAX_BRL`, `average = (min + max) / 2`, all rounded to
2 decimals. -/
def estimateCreditPrice (credits : ℚ) : PriceEstimate :=
  { min := round2 (credits * PRICE_MIN_BRL)
    max := round2 (credits * PRICE_MAX_BRL)
    average := round2 ((credits * PRICE_MIN_BRL + credits * PRICE_MAX_BRL) / 2) }

/-- Rounding to 2 decimals is monotone. -/
theorem round2_mono {a b : ℚ} (h : a ≤ b) : round2 a ≤ round2 b := by
  have hf : (⌊a * 100 + 1 / 2⌋ : ℤ) ≤ ⌊b * 100 + 1 / 2⌋ := Int.floor_mono (by linarith)
  have hq : ((⌊a * 100 + 1 / 2⌋ : ℤ) : ℚ) ≤ ((⌊b * 100 + 1 / 2⌋ : ℤ) : ℚ) := by exact_mod_cast hf
  unfold round2 jsRound
  linarith

/-- `List.find?` only depends on the pointwise behaviour of its predicate. -/
theorem find?_congrFun {α : Type} (p q : α → Bool) (h : ∀ a, p a = q a) :
    ∀ l : List α, l.find? p = l.find? q
  | [] => rfl
  | a :: l => by
    rw [List.find?_cons, List.find?_cons, h a]
    cases q a with
    | true => rfl
    | false => exact find?_congrFun p q h l

/-- Strict declaration order on mode results. -/
def declLt (a b : ModeResult) : Prop := declIdx a.mode < declIdx b.mode

/-- Tie-breaking discipline: whenever two results have equal emissions, the
earlier one comes earlier in the mode declaration order. -/
def tieOrdered (a b : ModeResult) : Prop :=
  a.emission = b.emission → declIdx a.mode < declIdx b.mode

instance : DecidableRel tieOrdered := fun a b => by unfold tieOrdered; infer_instance

theorem pairwise_tie_orderedInsert (x : ModeResult) :
    ∀ l : List ModeResult, l.Pairwise tieOrdered → (∀ y ∈ l, declLt x y) →
      (List.orderedInsert emLe x l).Pairwise tieOrdered
  | [], _, _ => List.pairwise_singleton _ _
  | y :: ys, hl, hx => by
    rcases List.pairwise_cons.mp hl with ⟨hy, hys⟩
    by_cases h : emLe x y
    · simp only [List.orderedInsert, if_pos h]
      exact List.pairwise_cons.mpr ⟨fun z hz _ => hx z hz, hl⟩
    · simp only [List.orderedInsert, if_neg h]
      refine List.pairwise_cons.mpr ⟨?_, ?_⟩
      · intro z hz
        rcases (List.mem_orderedInsert _).mp hz with rfl | hz'
        · exact fun heq => absurd (le_of_eq heq.symm) h
        · exact hy z hz'
      · exact pairwise_tie_orderedInsert x ys hys fun z hz => hx z (List.mem_cons_of_mem _ hz)

/-- Stability of the insertion sort used in `calculateAllModes`: if the
input is strictly ordered by declaration order, ties in the sorted output
keep the declaration order. -/
theorem pairwise_tie_insertionSort :
    ∀ l : List ModeResult, l.Pairwise declLt →
      (List.insertionSort emLe l).Pairwise tieOrdered
  | [], _ => List.Pairwise.nil
  | x :: xs, hl => by
    rcases List.pairwise_cons.mp hl with ⟨hx, hxs⟩
    simp only [List.insertionSort]
    refine pairwise_tie_orderedInsert x _ (pairwise_tie_insertionSort xs hxs) ?_
    intro y hy
    exact hx y ((List.perm_insertionSort emLe xs).mem_iff.mp hy)

/-- The mode stored in a `ModeResult` is the mode it was built for. -/
theorem modeResultFor_mode (d : ℚ) (m : Mode) : (modeResultFor d m).mode = m := rfl

/-- Lowercasing the empty string gives the empty string. -/
theorem jsToLower_empty : jsToLower "" = "" := rfl

/-- No stored route has an empty (lowercased) origin or destination. -/
theorem routes_lower_ne_empty :
    ∀ r ∈ routes, jsToLower r.origin ≠ "" ∧ jsToLower r.destination ≠ "" := by decide

/-- The matching predicate of `findDistance` is symmetric in the pair. -/
theorem routeMatches_symm (o d : String) (r : Route) :
    routeMatches o d r = routeMatches d o r :=
  Bool.or_comm _ _

/-- Every city of `getAllCities` occurs in some stored route. -/
theorem getAllCities_sub_routes :
    ∀ c ∈ getAllCities, ∃ r ∈ routes, r.origin = c ∨ r.destination = c := by decide

/-- Both endpoints of every stored route occur in `getAllCities`. -/
theorem routes_sub_getAllCities :
    ∀ r ∈ routes, r.origin ∈ getAllCities ∧ r.destination ∈ getAllCities := by decide

/-- Claim C1: for every distance `d ≥ 0` and every mode of the closed set
{bicycle, car, bus, truck}, the emission is `d` times the mode's fixed
factor (bicycle 0, car 0.12, bus 0.089, truck 0.96) rounded to 2 decimal
places; in particular `emission(430, car) = 51.60`. -/
theorem claim_C1_emission_linear :
    (∀ d : ℚ, 0 ≤ d → ∀ m : Mode,
      calculateEmission d m = round2 (d *
        (match m with
         | Mode.bicycle => 0
         | Mode.car => 0.12
         | Mode.bus => 0.089
         | Mode.truck => 0.96))) ∧
    calculateEmission 430 Mode.car = 51.6 :=
  ⟨fun _ _ m => by cases m <;> rfl, by decide⟩

theorem claim_C1_emission_linear_witness :
    calculateEmission 430 Mode.car = round2 (430 * 0.12) ∧
    calculateEmission 430 Mode.car = 51.6 :=
  ⟨claim_C1_emission_linear.1 430 (by decide) Mode.car, claim_C1_emission_linear.2⟩

/-- Claim C2: for every `d ≥ 0`, `allModes d` has exactly 4 entries, one per
mode, sorted ascending by emission with ties broken by the declaration order
bicycle, car, bus, truck; for `allModes 430`, bicycle is first with emission
0.00, truck is last with emission 412.80, and car's `percentageVsCar` is
100.00. -/
theorem claim_C2_allModes_ranking :
    (∀ d : ℚ, 0 ≤ d →
      (calculateAllModes d).length = 4 ∧
      ((calculateAllModes d).map ModeResult.mode).Perm modesInOrder ∧
      (calculateAllModes d).Pairwise emLe ∧
      (calculateAllModes d).Pairwise tieOrdered) ∧
    ((calculateAllModes 430).head?.map fun x => (x.mode, x.emission)) =
      some (Mode.bicycle, 0) ∧
    ((calculateAllModes 430).getLast?.map fun x => (x.mode, x.emission)) =
      some (Mode.truck, 412.8) ∧
    ∀ x ∈ calculateAllModes 430, x.mode = Mode.car → x.percentageVsCar = 100 := by
  refine ⟨fun d _ => ⟨?_, ?_, ?_, ?_⟩, by decide, by decide, by decide⟩
  · show (List.insertionSort emLe (modesInOrder.map (modeResultFor d))).length = 4
    rw [List.length_insertionSort, List.length_map]
    rfl
  · have hp :=
      (List.perm_insertionSort emLe (modesInOrder.map (modeResultFor d))).map ModeResult.mode
    have hmap : (modesInOrder.map (modeResultFor d)).map ModeResult.mode = modesInOrder := by
      simp [modesInOrder, Function.comp, modeResultFor_mode]
    rw [hmap] at hp
    exact hp
  · exact List.sorted_insertionSort emLe (modesInOrder.map (modeResultFor d))
  · refine pairwise_tie_insertionSort _ ?_
    refine List.pairwise_map.mpr ?_
    simp only [declLt, modeResultFor_mode]
    decide

theorem claim_C2_allModes_ranking_witness :
    ((calculateAllModes 430).length = 4 ∧
      ((calculateAllModes 430).map ModeResult.mode).Perm modesInOrder ∧
      (calculateAllModes 430).Pairwise emLe ∧
      (calculateAllModes 430).Pairwise tieOrdered) ∧
    (⟨Mode.car, 51.6, 100⟩ : ModeResult).percentageVsCar = 100 :=
  ⟨claim_C2_allModes_ranking.1 430 (by decide),
   claim_C2_allModes_ranking.2.2.2 ⟨Mode.car, 51.6, 100⟩ (by decide) rfl⟩

/-- Claim C3: every stored route is found in both orientations with its
stored distance, and a lookup succeeds iff some stored route matches the
normalized pair in either orientation. -/
theorem claim_C3_stored_routes :
    (∀ r ∈ routes,
      findDistance r.origin r.destination = some r.distanceKm ∧
      findDistance r.destination r.origin = some r.distanceKm) ∧
    ∀ A B : String, (findDistance A B).isSome ↔
      ∃ r ∈ routes, routeMatches (jsToLower (jsTrim A)) (jsToLower (jsTrim B)) r := by
  constructor
  · decide
  · intro A B
    show ((routes.find? (routeMatches (jsToLower (jsTrim A)) (jsToLower (jsTrim B)))).map
      Route.distanceKm).isSome ↔ _
    rw [Option.isSome_map']
    exact List.find?_isSome

theorem claim_C3_stored_routes_witness :
    findDistance "São Paulo, SP" "Rio de Janeiro, RJ" = some 430 ∧
    findDistance "Rio de Janeiro, RJ" "São Paulo, SP" = some 430 :=
  claim_C3_stored_routes.1 ⟨"São Paulo, SP", "Rio de Janeiro, RJ", 430⟩ (by decide)

/-- Claim C4: at distance 0 (car baseline emission 0) every entry of
`allModes 0` reports `percentageVsCar` as 0. -/
theorem claim_C4_zero_distance_percentage :
    (calculateAllModes 0).map ModeResult.percentageVsCar = [0, 0, 0, 0] := by decide

/-- Claim C5: savings are `baseline − emission` and the percentage is the
saved fraction of the baseline times 100 (0 when the baseline is 0), both
rounded to 2 decimals; in particular `savings(51.60, 51.60).percentage = 0`
and `savings(0, 51.60) = {savedKg: 51.60, percentage: 100.00}`. -/
theorem claim_C5_savings :
    (∀ e b : ℚ, calculateSavings e b =
      ⟨round2 (b - e), if b = 0 then 0 else round2 ((b - e) / b * 100)⟩) ∧
    (calculateSavings 51.6 51.6).percentage = 0 ∧
    calculateSavings 0 51.6 = ⟨51.6, 100⟩ :=
  ⟨fun _ _ => rfl, by decide, by decide⟩

theorem claim_C5_savings_witness :
    calculateSavings 0 51.6 =
      ⟨round2 ((51.6 : ℚ) - 0), if (51.6 : ℚ) = 0 then 0 else round2 ((51.6 - 0) / 51.6 * 100)⟩ :=
  claim_C5_savings.1 0 51.6

/-- Claim C6 as stated is false: at `credits = -1` the estimate has
`min = -50` and `average = -100`, so `min ≤ average` fails. -/
theorem claim_C6_price_counterexample :
    ¬ ((estimateCreditPrice (-1)).min ≤ (estimateCreditPrice (-1)).average) := by decide

/-- Claim C6 (amended): for every credits value the estimate is
`min = credits × 50`, `max = credits × 150` and `average` their midpoint,
each rounded to 2 decimals, and for every nonnegative credits value the
result satisfies `min ≤ average ≤ max`. -/
theorem claim_C6_price_range :
    (∀ c : ℚ, estimateCreditPrice c =
      ⟨round2 (c * 50), round2 (c * 150), round2 ((c * 50 + c * 150) / 2)⟩) ∧
    ∀ c : ℚ, 0 ≤ c →
      (estimateCreditPrice c).min ≤ (estimateCreditPrice c).average ∧
      (estimateCreditPrice c).average ≤ (estimateCreditPrice c).max := by
  refine ⟨fun c => rfl, fun c hc => ⟨?_, ?_⟩⟩
  · show round2 (c * PRICE_MIN_BRL) ≤ round2 ((c * PRICE_MIN_BRL + c * PRICE_MAX_BRL) / 2)
    refine round2_mono ?_
    simp only [PRICE_MIN_BRL, PRICE_MAX_BRL]
    linarith
  · show round2 ((c * PRICE_MIN_BRL + c * PRICE_MAX_BRL) / 2) ≤ round2 (c * PRICE_MAX_BRL)
    refine round2_mono ?_
    simp only [PRICE_MIN_BRL, PRICE_MAX_BRL]
    linarith

theorem claim_C6_price_range_witness :
    estimateCreditPrice 1 =
      ⟨round2 ((1 : ℚ) * 50), round2 ((1 : ℚ) * 150), round2 (((1 : ℚ) * 50 + 1 * 150) / 2)⟩ ∧
    ((estimateCreditPrice 1).min ≤ (estimateCreditPrice 1).average ∧
      (estimateCreditPrice 1).average ≤ (estimateCreditPrice 1).max) :=
  ⟨claim_C6_price_range.1 1, claim_C6_price_range.2 1 (by decide)⟩

/-- Claim C7: `findDistance` is insensitive to surrounding whitespace and
letter case: inputs with equal normalizations (trim then case-fold) give
equal results; in particular the lookup for `" são paulo, sp "` and
`"RIO DE JANEIRO, RJ"` equals the one for the stored spellings. -/
theorem claim_C7_normalization_insensitive :
    ∀ A A' B B' : String,
      jsToLower (jsTrim A) = jsToLower (jsTrim A') →
      jsToLower (jsTrim B) = jsToLower (jsTrim B') →
      findDistance A B = findDistance A' B' := by
  intro A A' B B' hA hB
  show (routes.find? (routeMatches (jsToLower (jsTrim A)) (jsToLower (jsTrim B)))).map
      Route.distanceKm =
    (routes.find? (routeMatches (jsToLower (jsTrim A')) (jsToLower (jsTrim B')))).map
      Route.distanceKm
  rw [hA, hB]

theorem claim_C7_normalization_insensitive_witness :
    findDistance " são paulo, sp " "RIO DE JANEIRO, RJ" =
      findDistance "São Paulo, SP" "Rio de Janeiro, RJ" :=
  claim_C7_normalization_insensitive _ _ _ _ (by decide) (by decide)

/-- Claim C8: `getAllCities` is exactly the deduplicated union of all origin
and destination names over the stored routes, sorted, with no duplicates. -/
theorem claim_C8_getAllCities_spec :
    getAllCities.Nodup ∧ getAllCities.Pairwise strLe ∧
    ∀ c : String, c ∈ getAllCities ↔ ∃ r ∈ routes, r.origin = c ∨ r.destination = c := by
  refine ⟨by decide, by decide, fun c => ⟨fun hc => getAllCities_sub_routes c hc, ?_⟩⟩
  rintro ⟨r, hr, h | h⟩
  · exact h ▸ (routes_sub_getAllCities r hr).1
  · exact h ▸ (routes_sub_getAllCities r hr).2

theorem claim_C8_getAllCities_spec_witness :
    "São Paulo, SP" ∈ getAllCities ↔
      ∃ r ∈ routes, r.origin = "São Paulo, SP" ∨ r.destination = "São Paulo, SP" :=
  claim_C8_getAllCities_spec.2.2 "São Paulo, SP"

/-- Claim C9: when the origin or the destination is empty or whitespace-only
after trimming, `findDistance` returns the not-found signal. -/
theorem claim_C9_blank_not_found :
    ∀ A B : String, (jsTrim A = "" ∨ jsTrim B = "") → findDistance A B = none := by
  intro A B h
  show (routes.find? (routeMatches (jsToLower (jsTrim A)) (jsToLower (jsTrim B)))).map
    Route.distanceKm = none
  suffices hfind :
      routes.find? (routeMatches (jsToLower (jsTrim A)) (jsToLower (jsTrim B))) = none by
    rw [hfind]; rfl
  rw [List.find?_eq_none]
  intro r hr
  have hne := routes_lower_ne_empty r hr
  rcases h with h | h <;> rw [h, jsToLower_empty] <;>
    simp [routeMatches, hne.1, hne.2]

theorem claim_C9_blank_not_found_witness :
    findDistance "   " "Rio de Janeiro, RJ" = none :=
  claim_C9_blank_not_found "   " "Rio de Janeiro, RJ" (Or.inl (by decide))

/-- Claim C10: `findDistance` is symmetric in its two arguments for all
string inputs, not only stored routes. -/
theorem claim_C10_findDistance_symm :
    ∀ A B : String, findDistance A B = findDistance B A := by
  intro A B
  show (routes.find? (routeMatches (jsToLower (jsTrim A)) (jsToLower (jsTrim B)))).map
      Route.distanceKm =
    (routes.find? (routeMatches (jsToLower (jsTrim B)) (jsToLower (jsTrim A)))).map
      Route.distanceKm
  rw [find?_congrFun _ _ (routeMatches_symm _ _) routes]

end Carbono
